import Mathlib

/-!
Verification of the phase-orchestration core of the GitHubCopilot-architect
repository: a shallow embedding of the model-configuration registry
(`config/agents.py`, `core/types/models.py`), the agent factory
(`core/agents/factory.py`), the Azure OpenAI agent
(`core/agents/azure_openai.py`), the file retriever
(`core/utils/tools/file_retriever.py`) and the exclusion tables
(`config/exclusions.py`), together with theorems settling the spec claims.
-/

set_option autoImplicit false
set_option linter.unusedVariables false

/-- Modelled from the spec: `core/agents/base.py` is not among the sources;
the spec (section 3) fixes the provider enumeration as a fixed set of LLM
vendors, and `azure_openai.py` references `ModelProvider.AZURE_OPENAI`. -/
inductive ModelProvider where
  | anthropic
  | openai
  | deepseek
  | gemini
  | azureOpenai
  deriving DecidableEq, Repr

/-- Modelled from the spec: `core/agents/base.py` is not among the sources;
the spec (section 3) fixes the reasoning-mode enumeration as
DISABLED | ENABLED | LOW | MEDIUM | HIGH | TEMPERATURE. -/
inductive ReasoningMode where
  | disabled
  | enabled
  | low
  | medium
  | high
  | temperature
  deriving DecidableEq, Repr

/-- `core/types/models.py`: `ModelConfig` named tuple. The Python
`temperature` field is an optional float; floats in the source are exact
decimal literals, embedded as rationals. -/
structure ModelConfig where
  provider : ModelProvider
  model_name : String
  reasoning : ReasoningMode := ReasoningMode.disabled
  temperature : Option ℚ := none
  deriving DecidableEq, Repr

/-- `core/types/models.py`: `CLAUDE_BASIC`. -/
def CLAUDE_BASIC : ModelConfig :=
  { provider := ModelProvider.anthropic
    model_name := "claude-3-7-sonnet-20250219"
    reasoning := ReasoningMode.disabled }

/-- `core/types/models.py`: `CLAUDE_WITH_REASONING`. -/
def CLAUDE_WITH_REASONING : ModelConfig :=
  { provider := ModelProvider.anthropic
    model_name := "claude-3-7-sonnet-20250219"
    reasoning := ReasoningMode.enabled }

/-- `core/types/models.py`: `O1_HIGH`. -/
def O1_HIGH : ModelConfig :=
  { provider := ModelProvider.openai
    model_name := "o1"
    reasoning := ReasoningMode.high }

/-- `core/types/models.py`: `O1_MEDIUM`. -/
def O1_MEDIUM : ModelConfig :=
  { provider := ModelProvider.openai
    model_name := "o1"
    reasoning := ReasoningMode.medium }

/-- `core/types/models.py`: `O1_LOW`. -/
def O1_LOW : ModelConfig :=
  { provider := ModelProvider.openai
    model_name := "o1"
    reasoning := ReasoningMode.low }

/-- `core/types/models.py`: `O3_MINI_HIGH`. -/
def O3_MINI_HIGH : ModelConfig :=
  { provider := ModelProvider.openai
    model_name := "o3-mini"
    reasoning := ReasoningMode.high }

/-- `core/types/models.py`: `O3_MINI_MEDIUM`. -/
def O3_MINI_MEDIUM : ModelConfig :=
  { provider := ModelProvider.openai
    model_name := "o3-mini"
    reasoning := ReasoningMode.medium }

/-- `core/types/models.py`: `O3_MINI_LOW`. -/
def O3_MINI_LOW : ModelConfig :=
  { provider := ModelProvider.openai
    model_name := "o3-mini"
    reasoning := ReasoningMode.low }

/-- `core/types/models.py`: `GPT4_1_DEFAULT` (temperature 0.7). -/
def GPT4_1_DEFAULT : ModelConfig :=
  { provider := ModelProvider.openai
    model_name := "gpt-4.1"
    reasoning := ReasoningMode.temperature
    temperature := some (Rat.mk' 7 10) }

/-- `core/types/models.py`: `GPT4_1_CREATIVE` (temperature 0.9). -/
def GPT4_1_CREATIVE : ModelConfig :=
  { provider := ModelProvider.openai
    model_name := "gpt-4.1"
    reasoning := ReasoningMode.temperature
    temperature := some (Rat.mk' 9 10) }

/-- `core/types/models.py`: `GPT4_1_PRECISE` (temperature 0.2). -/
def GPT4_1_PRECISE : ModelConfig :=
  { provider := ModelProvider.openai
    model_name := "gpt-4.1"
    reasoning := ReasoningMode.temperature
    temperature := some (Rat.mk' 1 5) }

/-- `core/types/models.py`: `DEEPSEEK_REASONER`. -/
def DEEPSEEK_REASONER : ModelConfig :=
  { provider := ModelProvider.deepseek
    model_name := "deepseek-reasoner"
    reasoning := ReasoningMode.enabled }

/-- `core/types/models.py`: `GEMINI_BASIC`. -/
def GEMINI_BASIC : ModelConfig :=
  { provider := ModelProvider.gemini
    model_name := "gemini-2.5-flash-preview-04-17"
    reasoning := ReasoningMode.disabled }

/-- `core/types/models.py`: `GEMINI_WITH_REASONING`. -/
def GEMINI_WITH_REASONING : ModelConfig :=
  { provider := ModelProvider.gemini
    model_name := "gemini-2.5-pro-preview-03-25"
    reasoning := ReasoningMode.enabled }

/-- The fourteen predefined `ModelConfig` constants of
`core/types/models.py`, in source order. -/
def predefinedModelConfigs : List ModelConfig :=
  [CLAUDE_BASIC, CLAUDE_WITH_REASONING,
   O1_HIGH, O1_MEDIUM, O1_LOW,
   O3_MINI_HIGH, O3_MINI_MEDIUM, O3_MINI_LOW,
   GPT4_1_DEFAULT, GPT4_1_CREATIVE, GPT4_1_PRECISE,
   DEEPSEEK_REASONER,
   GEMINI_BASIC, GEMINI_WITH_REASONING]

/-- `config/agents.py`: the `MODEL_CONFIG` phase registry, as an
association list in source order. -/
def MODEL_CONFIG : List (String × ModelConfig) :=
  [("phase1", GPT4_1_PRECISE),
   ("phase2", GEMINI_BASIC),
   ("phase3", GEMINI_BASIC),
   ("phase4", GEMINI_BASIC),
   ("phase5", GEMINI_BASIC),
   ("final", GEMINI_BASIC)]

/-- Python `dict.get(phase)` on a phase registry: the value at the key,
or `none` when the key is absent. -/
def registryGet (registry : List (String × ModelConfig)) (phase : String) :
    Option ModelConfig :=
  (registry.find? (fun kv => kv.1 = phase)).map (fun kv => kv.2)

/-- Python exceptions raised (or named by the spec) around the embedded
code. The source raises `ValueError`; `configurationError` and
`unsupportedProviderError` are the spec's taxonomy names (section 7),
present so that claims phrased in those terms can be stated and compared
with what the code actually raises. `unicodeDecodeError` is what a strict
codec raises inside `read_file_with_fallback`. -/
inductive PyErr where
  | valueError (msg : String)
  | configurationError (msg : String)
  | unsupportedProviderError (msg : String)
  | unicodeDecodeError
  deriving DecidableEq, Repr

/-- Message text attached to an exception (Python `str(e)`). -/
def PyErr.message : PyErr → String
  | PyErr.valueError msg => msg
  | PyErr.configurationError msg => msg
  | PyErr.unsupportedProviderError msg => msg
  | PyErr.unicodeDecodeError => "unicode decode error"

instance {ε α : Type} [DecidableEq ε] [DecidableEq α] : DecidableEq (Except ε α) :=
  fun a b =>
    match a, b with
    | Except.ok x, Except.ok y =>
        if h : x = y then isTrue (by rw [h])
        else isFalse (by intro hh; cases hh; exact h rfl)
    | Except.error x, Except.error y =>
        if h : x = y then isTrue (by rw [h])
        else isFalse (by intro hh; cases hh; exact h rfl)
    | Except.ok _, Except.error _ => isFalse (by intro hh; cases hh)
    | Except.error _, Except.ok _ => isFalse (by intro hh; cases hh)

/-- Does a call outcome consist of a raised `ConfigurationError`? -/
def raisedConfigurationError {α : Type} : Except PyErr α → Bool
  | Except.error (PyErr.configurationError _) => true
  | _ => false

/-- Does a call outcome consist of a raised `UnsupportedProviderError`? -/
def raisedUnsupportedProviderError {α : Type} : Except PyErr α → Bool
  | Except.error (PyErr.unsupportedProviderError _) => true
  | _ => false

/-- The concrete architect instances `core/agents/factory.py` can
construct, with the constructor arguments the factory passes. The four
variants' classes live in modules outside the analyzed sources; the
factory's dispatch and argument passing are what is embedded here. -/
inductive Architect where
  | anthropic (model_name : String) (reasoning : ReasoningMode)
  | openai (model_name : String) (reasoning : ReasoningMode) (temperature : Option ℚ)
  | deepseek
  | gemini (model_name : String) (reasoning : ReasoningMode)
  deriving DecidableEq, Repr

/-- Display name of a provider, as Python interpolates the enum member
into the factory's error message. -/
def providerDisplay : ModelProvider → String
  | ModelProvider.anthropic => "ModelProvider.ANTHROPIC"
  | ModelProvider.openai => "ModelProvider.OPENAI"
  | ModelProvider.deepseek => "ModelProvider.DEEPSEEK"
  | ModelProvider.gemini => "ModelProvider.GEMINI"
  | ModelProvider.azureOpenai => "ModelProvider.AZURE_OPENAI"

/-- `core/agents/factory.py`: `get_architect_for_phase`. Reads the phase's
entry from the registry (the module-level `MODEL_CONFIG`, passed here
explicitly because the source reads it at call time and its tests
monkey-patch it), raises `ValueError` when the phase has no entry, then
dispatches on the provider, raising `ValueError` for any provider without
a matching branch. -/
def get_architect_for_phase (registry : List (String × ModelConfig))
    (phase : String) : Except PyErr Architect :=
  match registryGet registry phase with
  | none =>
      Except.error (PyErr.valueError
        ("No model configuration found for phase " ++ phase))
  | some config =>
      match config.provider with
      | ModelProvider.anthropic =>
          Except.ok (Architect.anthropic config.model_name config.reasoning)
      | ModelProvider.openai =>
          Except.ok (Architect.openai config.model_name config.reasoning
            config.temperature)
      | ModelProvider.deepseek =>
          Except.ok Architect.deepseek
      | ModelProvider.gemini =>
          Except.ok (Architect.gemini config.model_name config.reasoning)
      | other =>
          Except.error (PyErr.valueError
            ("Unknown model provider: " ++ providerDisplay other))

/-- The environment values `core/agents/azure_openai.py` reads through
`os.environ.get`: `none` models an unset variable. -/
structure AzureEnv where
  azure_endpoint : Option String
  azure_api_key : Option String
  azure_deployment : Option String
  deriving DecidableEq, Repr

/-- Python truthiness of an `os.environ.get` result: `None` and the empty
string are falsy, any other string is truthy. -/
def envTruthy : Option String → Bool
  | none => false
  | some s => s ≠ ""

/-- Python `a or b` where `a` is an optional string and `b` a string:
yields `a`'s value when truthy, otherwise `b`. -/
def pyOrElse (a : Option String) (b : String) : String :=
  match a with
  | some s => if s ≠ "" then s else b
  | none => b

/-- The `model_config: Dict[str, Any]` argument of
`AzureOpenAIArchitect.__init__`, restricted to the keys the constructor
reads with `dict.get`; an absent key models a dictionary without it. -/
structure AzureModelConfigDict where
  deployment : Option String := none
  model : Option String := none
  max_tokens : Option Nat := none
  temperature : Option ℚ := none
  top_p : Option ℚ := none
  reasoning_mode : Option ReasoningMode := none
  deriving DecidableEq, Repr

/-- The attribute state an `AzureOpenAIArchitect` holds after a successful
`__init__` (the SDK client object is represented by the endpoint,
key and version it is constructed from). -/
structure AzureArchitectState where
  endpoint : String
  api_key : String
  api_version : String
  deployment : String
  model : String
  max_tokens : Nat
  temperature : ℚ
  top_p : ℚ
  provider : ModelProvider
  reasoning_mode : ReasoningMode
  deriving DecidableEq, Repr

/-- `core/agents/azure_openai.py`: `AzureOpenAIArchitect.__init__`.
Reads `AZURE_ENDPOINT` and `AZURE_API_KEY`, raises `ValueError` when
either is falsy, then fills the attribute state from the environment and
the `model_config` dictionary defaults. -/
def azureOpenAIArchitectInit (env : AzureEnv) (model_config : AzureModelConfigDict) :
    Except PyErr AzureArchitectState :=
  let endpoint := env.azure_endpoint
  let api_key := env.azure_api_key
  if ¬ envTruthy endpoint ∨ ¬ envTruthy api_key then
    Except.error (PyErr.valueError
      "AZURE_ENDPOINT and AZURE_API_KEY environment variables must be set")
  else
    Except.ok
      { endpoint := endpoint.getD ""
        api_key := api_key.getD ""
        api_version := "2024-12-01-preview"
        deployment := pyOrElse env.azure_deployment
          (model_config.deployment.getD "gpt-4o")
        model := model_config.model.getD "gpt-4o"
        max_tokens := model_config.max_tokens.getD 4096
        temperature := model_config.temperature.getD (Rat.mk' 7 10)
        top_p := model_config.top_p.getD (Rat.mk' 19 20)
        provider := ModelProvider.azureOpenai
        reasoning_mode := model_config.reasoning_mode.getD ReasoningMode.medium }

/-- Untyped Python values, as far as the embedded code stores and reads
them: strings, lists and string-keyed dictionaries. -/
inductive PyVal where
  | str (s : String)
  | list (xs : List PyVal)
  | dict (kvs : List (String × PyVal))

/-- Python `dict.get(k, dflt)`. Only applied to dictionary values in the
embedded code. -/
def PyVal.getKeyD (v : PyVal) (k : String) (dflt : PyVal) : PyVal :=
  match v with
  | PyVal.dict kvs =>
      match kvs.find? (fun kv => kv.1 = k) with
      | some kv => kv.2
      | none => dflt
  | _ => dflt

/-- Python list indexing `v[n]`. Only applied to non-empty list values in
the embedded code (the source indexes the default `[{}]`). -/
def PyVal.nth (v : PyVal) (n : Nat) : PyVal :=
  match v with
  | PyVal.list xs => xs.getD n (PyVal.dict [])
  | _ => PyVal.dict []

/-- Does a dictionary value carry the key? -/
def PyVal.hasKey (v : PyVal) (k : String) : Bool :=
  match v with
  | PyVal.dict kvs => kvs.any (fun kv => kv.1 = k)
  | _ => false

/-- One item of the response iterated by `_call_azure_openai`: the code
tests `isinstance(chunk, tuple)` and reads `chunk[1]`, a dictionary with
string values; anything that is not a tuple is skipped. -/
inductive Chunk where
  | tup (elems : List (List (String × String)))
  | nonTuple
  deriving DecidableEq, Repr

/-- The collection loop inside `_call_azure_openai`: for each chunk that
is a tuple of length greater than one, append `chunk[1].get("content", "")`. -/
def streamCollect : List Chunk → List String
  | [] => []
  | Chunk.tup elems :: rest =>
      match elems with
      | _ :: d :: _ =>
          ((d.find? (fun kv => kv.1 = "content")).map (fun kv => kv.2)).getD ""
            :: streamCollect rest
      | _ => streamCollect rest
  | Chunk.nonTuple :: rest => streamCollect rest

/-- `core/agents/azure_openai.py`: `_call_azure_openai`. The network
round trip (`client.chat.completions.create` together with iterating its
result) is abstracted by its outcome: either the chunk sequence it
produces or the exception it raises. On an exception the wrapper logs
one `logging.error` line and re-raises; on success it returns the
single-key dictionary of the collected stream. The first component of
the result is the list of log lines emitted. -/
def callAzureOpenAI (messages : List (String × String))
    (outcome : Except PyErr (List Chunk)) :
    List String × Except PyErr PyVal :=
  match outcome with
  | Except.error e =>
      (["Error streaming from Azure OpenAI API: " ++ e.message],
       Except.error e)
  | Except.ok chunks =>
      ([],
       Except.ok (PyVal.dict
         [("streamed_content", PyVal.str (String.join (streamCollect chunks)))]))

/-- Modelled from the spec: `config/prompts/final_analysis_prompt.py` is
not among the sources; the spec treats prompt construction as pure string
formatting over the consolidated report and the project structure, so the
template is modelled as a string embedding both (the structure joined
line by line). -/
def format_final_analysis_prompt (consolidated_report : String)
    (project_structure : List String) : String :=
  "Consolidated report:\n" ++ consolidated_report ++
    "\nProject structure:\n" ++ String.intercalate "\n" project_structure

/-- The structure-substitution step shared by `final_analysis` and
`analyze_final`: `None` is replaced by the sentinel single-entry list,
any present list (empty included) is used as given. -/
def finalAnalysisStructure (project_structure : Option (List String)) :
    List String :=
  match project_structure with
  | none => ["No project structure provided"]
  | some l => l

/-- The user prompt `final_analysis` and `analyze_final` build. -/
def finalAnalysisPrompt (consolidated_report : String)
    (project_structure : Option (List String)) : String :=
  format_final_analysis_prompt consolidated_report
    (finalAnalysisStructure project_structure)

/-- The message list `final_analysis` and `analyze_final` send: the
system message followed by the formatted user prompt. -/
def finalAnalysisMessages (system_message consolidated_report : String)
    (project_structure : Option (List String)) : List (String × String) :=
  [("system", system_message),
   ("user", finalAnalysisPrompt consolidated_report project_structure)]

/-- The content extraction at the end of `final_analysis`:
`response.get("choices", [{}])[0].get("message", {}).get("content", "")`. -/
def finalAnalysisContent (response : PyVal) : PyVal :=
  ((((response.getKeyD "choices" (PyVal.list [PyVal.dict []])).nth 0).getKeyD
      "message" (PyVal.dict [])).getKeyD "content" (PyVal.str ""))

/-- `core/agents/azure_openai.py`: `AzureOpenAIArchitect.final_analysis`.
Substitutes the sentinel structure when the argument is `None`, formats
the prompt, calls `_call_azure_openai` (whose network outcome is a
parameter), extracts the content chain and wraps it under the key
`final_analysis`. An exception from the call propagates. -/
def azureFinalAnalysis (system_message consolidated_report : String)
    (project_structure : Option (List String))
    (outcome : Except PyErr (List Chunk)) : Except PyErr PyVal :=
  match (callAzureOpenAI
      (finalAnalysisMessages system_message consolidated_report project_structure)
      outcome).2 with
  | Except.error e => Except.error e
  | Except.ok response =>
      Except.ok (PyVal.dict [("final_analysis", finalAnalysisContent response)])

/-- `core/agents/azure_openai.py`: `AzureOpenAIArchitect.analyze_final`.
Same structure substitution and prompt as `final_analysis`, but the raw
call response is wrapped under the key `analysis`. -/
def azureAnalyzeFinal (system_message consolidated_report : String)
    (project_structure : Option (List String))
    (outcome : Except PyErr (List Chunk)) : Except PyErr PyVal :=
  match (callAzureOpenAI
      (finalAnalysisMessages system_message consolidated_report project_structure)
      outcome).2 with
  | Except.error e => Except.error e
  | Except.ok response =>
      Except.ok (PyVal.dict [("analysis", response)])

/-- Number of bytes of the UTF-8 sequence a lead byte starts (0 for an
invalid lead byte). -/
def utf8SeqLen (b : Nat) : Nat :=
  if b ≤ 0x7F then 1
  else if 0xC2 ≤ b ∧ b ≤ 0xDF then 2
  else if 0xE0 ≤ b ∧ b ≤ 0xEF then 3
  else if 0xF0 ≤ b ∧ b ≤ 0xF4 then 4
  else 0

/-- Lower bound of the first continuation byte after the given lead byte
(the tightened ranges exclude overlong encodings, surrogates and
codepoints past U+10FFFF, as the strict codec does). -/
def utf8ContLo (b : Nat) : Nat :=
  if b = 0xE0 then 0xA0 else if b = 0xF0 then 0x90 else 0x80

/-- Upper bound of the first continuation byte after the given lead byte. -/
def utf8ContHi (b : Nat) : Nat :=
  if b = 0xED then 0x9F else if b = 0xF4 then 0x8F else 0xBF

/-- Strict UTF-8 decoding of a byte sequence into codepoints; `none` is a
`UnicodeDecodeError` of Python's `utf-8` codec. -/
def utf8Decode : List Nat → Option (List Nat)
  | [] => some []
  | b :: rest =>
    if b ≤ 0x7F then (utf8Decode rest).map (fun cps => b :: cps)
    else if utf8SeqLen b = 2 then
      match rest with
      | b1 :: rest1 =>
          if utf8ContLo b ≤ b1 ∧ b1 ≤ utf8ContHi b then
            (utf8Decode rest1).map
              (fun cps => ((b - 0xC0) * 0x40 + (b1 - 0x80)) :: cps)
          else none
      | [] => none
    else if utf8SeqLen b = 3 then
      match rest with
      | b1 :: b2 :: rest2 =>
          if (utf8ContLo b ≤ b1 ∧ b1 ≤ utf8ContHi b) ∧
              (0x80 ≤ b2 ∧ b2 ≤ 0xBF) then
            (utf8Decode rest2).map
              (fun cps =>
                ((b - 0xE0) * 0x1000 + (b1 - 0x80) * 0x40 + (b2 - 0x80)) :: cps)
          else none
      | _ => none
    else if utf8SeqLen b = 4 then
      match rest with
      | b1 :: b2 :: b3 :: rest3 =>
          if (utf8ContLo b ≤ b1 ∧ b1 ≤ utf8ContHi b) ∧
              (0x80 ≤ b2 ∧ b2 ≤ 0xBF) ∧ (0x80 ≤ b3 ∧ b3 ≤ 0xBF) then
            (utf8Decode rest3).map
              (fun cps =>
                ((b - 0xF0) * 0x40000 + (b1 - 0x80) * 0x1000 +
                  (b2 - 0x80) * 0x40 + (b3 - 0x80)) :: cps)
          else none
      | _ => none
    else none

/-- UTF-8 decoding with `errors="replace"`: an ill-formed maximal subpart
becomes one U+FFFD replacement character. -/
def utf8Replace : List Nat → List Nat
  | [] => []
  | b :: rest =>
    if b ≤ 0x7F then b :: utf8Replace rest
    else if utf8SeqLen b = 2 then
      match rest with
      | b1 :: rest1 =>
          if utf8ContLo b ≤ b1 ∧ b1 ≤ utf8ContHi b then
            ((b - 0xC0) * 0x40 + (b1 - 0x80)) :: utf8Replace rest1
          else 0xFFFD :: utf8Replace (b1 :: rest1)
      | [] => [0xFFFD]
    else if utf8SeqLen b = 3 then
      match rest with
      | [] => [0xFFFD]
      | b1 :: rest1 =>
          if utf8ContLo b ≤ b1 ∧ b1 ≤ utf8ContHi b then
            match rest1 with
            | [] => [0xFFFD]
            | b2 :: rest2 =>
                if 0x80 ≤ b2 ∧ b2 ≤ 0xBF then
                  ((b - 0xE0) * 0x1000 + (b1 - 0x80) * 0x40 + (b2 - 0x80)) ::
                    utf8Replace rest2
                else 0xFFFD :: utf8Replace (b2 :: rest2)
          else 0xFFFD :: utf8Replace (b1 :: rest1)
    else if utf8SeqLen b = 4 then
      match rest with
      | [] => [0xFFFD]
      | b1 :: rest1 =>
          if utf8ContLo b ≤ b1 ∧ b1 ≤ utf8ContHi b then
            match rest1 with
            | [] => [0xFFFD]
            | b2 :: rest2 =>
                if 0x80 ≤ b2 ∧ b2 ≤ 0xBF then
                  match rest2 with
                  | [] => [0xFFFD]
                  | b3 :: rest3 =>
                      if 0x80 ≤ b3 ∧ b3 ≤ 0xBF then
                        ((b - 0xF0) * 0x40000 + (b1 - 0x80) * 0x1000 +
                          (b2 - 0x80) * 0x40 + (b3 - 0x80)) :: utf8Replace rest3
                      else 0xFFFD :: utf8Replace (b3 :: rest3)
                else 0xFFFD :: utf8Replace (b2 :: rest2)
          else 0xFFFD :: utf8Replace (b1 :: rest1)
    else 0xFFFD :: utf8Replace rest

/-- The `latin-1` codec: every byte decodes to the codepoint of the same
value, so decoding never fails. Python's `iso-8859-1` is an alias of the
same codec. -/
def latin1Decode (bs : List Nat) : Option (List Nat) :=
  some bs

/-- One byte of the `cp1252` codec: the 0x80..0x9F block maps through the
Windows-1252 table, five of its positions are undefined and fail, every
other byte maps to itself. -/
def cp1252MapByte (b : Nat) : Option Nat :=
  if b < 0x80 ∨ 0x9F < b then some b
  else if b = 0x80 then some 0x20AC
  else if b = 0x82 then some 0x201A
  else if b = 0x83 then some 0x0192
  else if b = 0x84 then some 0x201E
  else if b = 0x85 then some 0x2026
  else if b = 0x86 then some 0x2020
  else if b = 0x87 then some 0x2021
  else if b = 0x88 then some 0x02C6
  else if b = 0x89 then some 0x2030
  else if b = 0x8A then some 0x0160
  else if b = 0x8B then some 0x2039
  else if b = 0x8C then some 0x0152
  else if b = 0x8E then some 0x017D
  else if b = 0x91 then some 0x2018
  else if b = 0x92 then some 0x2019
  else if b = 0x93 then some 0x201C
  else if b = 0x94 then some 0x201D
  else if b = 0x95 then some 0x2022
  else if b = 0x96 then some 0x2013
  else if b = 0x97 then some 0x2014
  else if b = 0x98 then some 0x02DC
  else if b = 0x99 then some 0x2122
  else if b = 0x9A then some 0x0161
  else if b = 0x9B then some 0x203A
  else if b = 0x9C then some 0x0153
  else if b = 0x9E then some 0x017E
  else if b = 0x9F then some 0x0178
  else none

/-- The `cp1252` codec over a byte sequence. -/
def cp1252Decode (bs : List Nat) : Option (List Nat) :=
  bs.mapM cp1252MapByte

/-- `core/utils/tools/file_retriever.py`: the `ENCODINGS` fallback list. -/
def ENCODINGS : List String :=
  ["utf-8", "latin-1", "cp1252", "iso-8859-1"]

/-- Strict decoding of a byte sequence with the named codec. -/
def decodeWith (enc : String) (bs : List Nat) : Option (List Nat) :=
  if enc = "utf-8" then utf8Decode bs
  else if enc = "latin-1" then latin1Decode bs
  else if enc = "cp1252" then cp1252Decode bs
  else if enc = "iso-8859-1" then latin1Decode bs
  else none

/-- `open(file_path, "r", encoding=enc)` followed by `f.read()`: the file
content as codepoints, or a raised `UnicodeDecodeError`. -/
def openRead (enc : String) (bs : List Nat) : Except PyErr (List Nat) :=
  match decodeWith enc bs with
  | some content => Except.ok content
  | none => Except.error PyErr.unicodeDecodeError

/-- The encoding loop of `read_file_with_fallback`: try each encoding in
order, catching `UnicodeDecodeError` and continuing. -/
def tryEncodings (bs : List Nat) : List String → Option (List Nat × String)
  | [] => none
  | enc :: rest =>
      match openRead enc bs with
      | Except.ok content => some (content, enc)
      | Except.error _ => tryEncodings bs rest

/-- `core/utils/tools/file_retriever.py`: `read_file_with_fallback`.
The file is the byte sequence `bs`; the result is the decoded content
together with the name of the encoding used, falling back to binary
reading decoded as UTF-8 with replacement when every encoding failed.
The function is total: no `UnicodeDecodeError` escapes it. -/
def read_file_with_fallback (bs : List Nat) : List Nat × String :=
  match tryEncodings bs ENCODINGS with
  | some r => r
  | none => (utf8Replace bs, "utf-8 (with replacement)")

/-- `config/exclusions.py`: `EXCLUDED_DIRS` (a set; embedded in source
order). -/
def EXCLUDED_DIRS : List String :=
  ["node_modules", ".next", ".git", "venv", "__pycache__", "_pycache_",
   "dist", "build", ".idea", "coverage",
   ".pytest_cache", ".mypy_cache", "env", ".env", ".venv",
   "site-packages", ".cursor"]

/-- `config/exclusions.py`: `EXCLUDED_FILES`. -/
def EXCLUDED_FILES : List String :=
  ["package-lock.json", "yarn.lock", "pnpm-lock.yaml",
   ".DS_Store", ".env", ".env.local", ".gitignore",
   "README.md", "LICENSE", ".eslintrc", ".prettierrc",
   "tsconfig.json", "requirements.txt", "poetry.lock",
   "Pipfile.lock", ".gitattributes", ".gitconfig", ".gitmodules",
   ".cursorrules", ".cursorignore"]

/-- `config/exclusions.py`: `EXCLUDED_EXTENSIONS`. -/
def EXCLUDED_EXTENSIONS : List String :=
  [".jpg", ".jpeg", ".png", ".gif", ".ico",
   ".svg", ".mp4", ".mp3", ".pdf", ".zip",
   ".woff", ".woff2", ".ttf", ".eot",
   ".pyc", ".pyo", ".pyd", ".so", ".pkl", ".pickle",
   ".db", ".sqlite", ".log", ".cache"]

/-- Shell-style pattern matching of `fnmatch` on the pattern language the
exclusion tables use: `*` matches any run of characters, `?` any single
character, every other character itself (POSIX `normcase` is the
identity; the tables contain no bracket patterns). The fuel argument
keeps the recursion structural; `fnmatch` supplies enough for it never to
run out. -/
def globMatchAux : Nat → List Char → List Char → Bool
  | 0, _, _ => false
  | _ + 1, [], s => s.isEmpty
  | fuel + 1, '*' :: ps, [] => globMatchAux fuel ps []
  | fuel + 1, '*' :: ps, c :: cs =>
      globMatchAux fuel ps (c :: cs) || globMatchAux fuel ('*' :: ps) cs
  | fuel + 1, '?' :: ps, _ :: cs => globMatchAux fuel ps cs
  | _ + 1, '?' :: _, [] => false
  | fuel + 1, a :: ps, c :: cs => a = c && globMatchAux fuel ps cs
  | _ + 1, _ :: _, [] => false

/-- `fnmatch.fnmatch(name, pattern)`. -/
def fnmatch (name pat : String) : Bool :=
  globMatchAux (pat.length + name.length + 1) pat.data name.data

/-- Last component of a path (`pathlib.Path.name`). -/
def pathName (parts : List String) : String :=
  parts.getLastD ""

/-- `core/utils/tools/file_retriever.py`: `should_exclude`. A path is a
list of its parts; it is excluded when any part is an excluded directory
name or its final name matches an exclusion pattern. -/
def should_exclude (parts : List String)
    (exclude_dirs exclude_patterns : List String) : Bool :=
  parts.any (fun part => exclude_dirs.contains part) ||
    exclude_patterns.any (fun pat => fnmatch (pathName parts) pat)

/-- The default `exclude_patterns` `list_files` builds when called with
`None`: the excluded file names plus one `*ext` pattern per excluded
extension. -/
def defaultExcludePatterns : List String :=
  EXCLUDED_FILES ++ EXCLUDED_EXTENSIONS.map (fun ext => "*" ++ ext)

/-- A directory tree flattened to its entries: each entry is the full
part-list of its path paired with `true` for a file and `false` for a
directory. `iterdir` of a path returns the entries directly below it, in
list order. -/
def FsEntries : Type := List (List String × Bool)

/-- Is `q` directly inside the directory with parts `parent`? -/
def isChildOf (parent q : List String) : Bool :=
  q.length = parent.length + 1 && parent.isPrefixOf q

/-- `_list_files_recursive` inside `list_files`: visits a directory given
as its part-list at a recursion depth, returns at once past `max_depth`,
skips excluded children, yields files and recurses into subdirectories
with the depth increased. The fuel equals `max_depth + 1 - depth` on
every reachable call, so it never runs out before the depth guard fires. -/
def listFilesGo (entries : FsEntries) (exclude_dirs exclude_patterns : List String)
    (max_depth : Nat) : Nat → List String → Nat → List (List String)
  | 0, _, _ => []
  | fuel + 1, parent, depth =>
      if depth > max_depth then []
      else
        (entries.filter (fun it => isChildOf parent it.1)).flatMap
          (fun it =>
            if should_exclude it.1 exclude_dirs exclude_patterns then []
            else if it.2 then [it.1]
            else listFilesGo entries exclude_dirs exclude_patterns max_depth
              fuel it.1 (depth + 1))

/-- `core/utils/tools/file_retriever.py`: `list_files` on a directory
whose path has parts `root`, over the flattened tree `entries`. -/
def list_files (entries : FsEntries) (root : List String)
    (exclude_dirs exclude_patterns : List String) (max_depth : Nat) :
    List (List String) :=
  listFilesGo entries exclude_dirs exclude_patterns max_depth
    (max_depth + 1) root 0

/-- `list_files` under the default exclusion policy (both optional
arguments `None`). -/
def list_files_default (entries : FsEntries) (root : List String)
    (max_depth : Nat) : List (List String) :=
  list_files entries root EXCLUDED_DIRS defaultExcludePatterns max_depth

/-- A heap of Python `set` objects holding strings, to make the sharing
in `get_file_contents` observable: a location indexes a cell. -/
structure SetStore where
  cells : List (List String)
  deriving DecidableEq, Repr

/-- Reading the set at a location (empty for a dangling location). -/
def SetStore.read (σ : SetStore) (l : Nat) : List String :=
  σ.cells.getD l []

/-- Overwriting the set at a location. -/
def SetStore.write (σ : SetStore) (l : Nat) (v : List String) : SetStore :=
  ⟨σ.cells.set l v⟩

/-- Allocating a fresh set object (`set.copy` allocates). -/
def SetStore.alloc (σ : SetStore) (v : List String) : Nat × SetStore :=
  (σ.cells.length, ⟨σ.cells ++ [v]⟩)

/-- `core/utils/tools/file_retriever.py`: the `exclude_dirs` adjustment
at the start of `get_file_contents`. When `vscode_config` is set, the
caller passed a set (a location) and that set contains `".vscode"`, the
local name is rebound to a fresh copy and `".vscode"` is removed from the
copy; the effective location is returned together with the heap after
the call. -/
def getFileContentsExcludeDirs (vscode_config : Bool) (exclude_dirs : Option Nat)
    (σ : SetStore) : Option Nat × SetStore :=
  match exclude_dirs with
  | none => (none, σ)
  | some l =>
      if vscode_config && (σ.read l).contains ".vscode" then
        let copied := σ.alloc (σ.read l)
        let σ2 := copied.2.write copied.1
          ((copied.2.read copied.1).erase ".vscode")
        (some copied.1, σ2)
      else (some l, σ)

/-- A registry binding the final phase to an Azure OpenAI configuration:
the shape of input the repository's test harness produces by
monkey-patching the module-level `MODEL_CONFIG`. -/
def AZURE_GPT4O_CONFIG : ModelConfig :=
  { provider := ModelProvider.azureOpenai
    model_name := "gpt-4o"
    reasoning := ReasoningMode.medium }

/-- See `AZURE_GPT4O_CONFIG`. -/
def registryWithAzureFinal : List (String × ModelConfig) :=
  [("final", AZURE_GPT4O_CONFIG)]

/-- C1 counterexample: at the unknown phase `phase6` the factory does not
raise `ConfigurationError` (no such class exists in the code); it raises
`ValueError`. -/
theorem get_architect_unknown_phase_no_configurationError :
    raisedConfigurationError (get_architect_for_phase MODEL_CONFIG "phase6") =
      false ∧
    get_architect_for_phase MODEL_CONFIG "phase6" =
      Except.error (PyErr.valueError
        "No model configuration found for phase phase6") := by
  exact ⟨rfl, by decide⟩

/-- C1 (amended): for every phase identifier not present in `MODEL_CONFIG`,
`get_architect_for_phase` fails with a `ValueError` and never returns a
default agent or configuration. -/
theorem get_architect_unknown_phase_raises_valueError (phase : String)
    (habsent : registryGet MODEL_CONFIG phase = none) :
    get_architect_for_phase MODEL_CONFIG phase =
      Except.error (PyErr.valueError
        ("No model configuration found for phase " ++ phase)) := by
  unfold get_architect_for_phase
  rw [habsent]

/-- Witness for C1 at the concrete phase `phase6`. -/
theorem get_architect_unknown_phase_raises_valueError_witness :
    registryGet MODEL_CONFIG "phase6" = none ∧
    get_architect_for_phase MODEL_CONFIG "phase6" =
      Except.error (PyErr.valueError
        ("No model configuration found for phase " ++ "phase6")) :=
  ⟨by decide, get_architect_unknown_phase_raises_valueError "phase6" (by decide)⟩

/-- C2: over all fourteen predefined `ModelConfig` constants and all
entries of the `MODEL_CONFIG` registry, the `temperature` field is set
exactly when the reasoning mode is `TEMPERATURE`. -/
theorem temperature_set_iff_temperature_mode :
    ∀ c ∈ predefinedModelConfigs ++ MODEL_CONFIG.map Prod.snd,
      (c.temperature.isSome = true ↔ c.reasoning = ReasoningMode.temperature) := by
  decide

/-- Witness for C2 at the concrete constant `GPT4_1_DEFAULT`. -/
theorem temperature_set_iff_temperature_mode_witness :
    GPT4_1_DEFAULT ∈ predefinedModelConfigs ++ MODEL_CONFIG.map Prod.snd ∧
    (GPT4_1_DEFAULT.temperature.isSome = true ↔
      GPT4_1_DEFAULT.reasoning = ReasoningMode.temperature) :=
  ⟨by decide, temperature_set_iff_temperature_mode GPT4_1_DEFAULT (by decide)⟩

/-- C3 counterexample: with a present but empty project structure the
sentinel is not substituted, so the prompt is not built from the sentinel
single-entry structure. -/
theorem final_analysis_empty_structure_not_sentinel :
    finalAnalysisStructure (some []) ≠ ["No project structure provided"] ∧
    finalAnalysisPrompt "report" (some []) ≠
      format_final_analysis_prompt "report" ["No project structure provided"] := by
  exact ⟨by decide, by decide⟩

/-- C3 (amended): the sentinel single-entry structure is used exactly
when the project structure is absent (`None`); a present but empty
structure is passed through as the empty structure. In both cases, and
for every structure argument, `final_analysis` and `analyze_final`
return normally whenever the provider call does. -/
theorem final_analysis_sentinel_exactly_on_absent
    (system_message consolidated_report : String)
    (project_structure : Option (List String)) (chunks : List Chunk) :
    finalAnalysisPrompt consolidated_report none =
      format_final_analysis_prompt consolidated_report
        ["No project structure provided"] ∧
    finalAnalysisPrompt consolidated_report (some []) =
      format_final_analysis_prompt consolidated_report [] ∧
    (∃ v, azureFinalAnalysis system_message consolidated_report
        project_structure (Except.ok chunks) = Except.ok v) ∧
    (∃ v, azureAnalyzeFinal system_message consolidated_report
        project_structure (Except.ok chunks) = Except.ok v) :=
  ⟨rfl, rfl, ⟨_, rfl⟩, ⟨_, rfl⟩⟩

/-- C4 counterexample: with both environment values absent, construction
raises `ValueError`, not `ConfigurationError` (no such class exists in
the code). -/
theorem azure_init_missing_env_no_configurationError :
    raisedConfigurationError (azureOpenAIArchitectInit ⟨none, none, none⟩ {}) =
      false ∧
    azureOpenAIArchitectInit ⟨none, none, none⟩ {} =
      Except.error (PyErr.valueError
        "AZURE_ENDPOINT and AZURE_API_KEY environment variables must be set") := by
  exact ⟨rfl, by decide⟩

/-- C4 (amended): construction of an `AzureOpenAIArchitect` raises a
`ValueError` immediately when `AZURE_ENDPOINT` or `AZURE_API_KEY` is
absent or empty; when both are present and non-empty it succeeds,
raising nothing for missing credentials. -/
theorem azure_init_valueError_iff_missing_credentials (env : AzureEnv)
    (model_config : AzureModelConfigDict) :
    (envTruthy env.azure_endpoint = false ∨ envTruthy env.azure_api_key = false →
      azureOpenAIArchitectInit env model_config =
        Except.error (PyErr.valueError
          "AZURE_ENDPOINT and AZURE_API_KEY environment variables must be set")) ∧
    (envTruthy env.azure_endpoint = true → envTruthy env.azure_api_key = true →
      ∃ st, azureOpenAIArchitectInit env model_config = Except.ok st) := by
  constructor
  · intro h
    rcases h with h | h <;> simp [azureOpenAIArchitectInit, h]
  · intro h1 h2
    exact ⟨_, by unfold azureOpenAIArchitectInit; rw [if_neg (by simp [h1, h2])]⟩

/-- Witness for C4: empty-string endpoint fails, full credentials
succeed. -/
theorem azure_init_valueError_iff_missing_credentials_witness :
    azureOpenAIArchitectInit ⟨some "", some "key", none⟩ {} =
      Except.error (PyErr.valueError
        "AZURE_ENDPOINT and AZURE_API_KEY environment variables must be set") ∧
    ∃ st, azureOpenAIArchitectInit
        ⟨some "https://endpoint", some "key", none⟩ {} = Except.ok st :=
  ⟨(azure_init_valueError_iff_missing_credentials ⟨some "", some "key", none⟩ {}).1
      (Or.inl (by decide)),
   (azure_init_valueError_iff_missing_credentials
      ⟨some "https://endpoint", some "key", none⟩ {}).2 (by decide) (by decide)⟩

/-- C5 counterexample: when the registry resolves a phase to the
`AZURE_OPENAI` provider, the factory does not raise
`UnsupportedProviderError` (no such class exists in the code); it raises
`ValueError`. -/
theorem get_architect_azure_provider_no_unsupportedProviderError :
    raisedUnsupportedProviderError
        (get_architect_for_phase registryWithAzureFinal "final") = false ∧
    get_architect_for_phase registryWithAzureFinal "final" =
      Except.error (PyErr.valueError
        "Unknown model provider: ModelProvider.AZURE_OPENAI") := by
  exact ⟨rfl, by decide⟩

/-- C5 (amended): for every registry and phase whose entry resolves to a
provider without a dispatch branch (outside ANTHROPIC, OPENAI, DEEPSEEK
and GEMINI), `get_architect_for_phase` fails with a `ValueError` rather
than constructing any agent. -/
theorem get_architect_unknown_provider_raises_valueError
    (registry : List (String × ModelConfig)) (phase : String)
    (config : ModelConfig)
    (hfound : registryGet registry phase = some config)
    (hprov : config.provider ∉
      [ModelProvider.anthropic, ModelProvider.openai,
       ModelProvider.deepseek, ModelProvider.gemini]) :
    get_architect_for_phase registry phase =
      Except.error (PyErr.valueError
        ("Unknown model provider: " ++ providerDisplay config.provider)) := by
  cases hc : config.provider with
  | azureOpenai => simp [get_architect_for_phase, hfound, hc]
  | anthropic => exact absurd (by simp [hc]) hprov
  | openai => exact absurd (by simp [hc]) hprov
  | deepseek => exact absurd (by simp [hc]) hprov
  | gemini => exact absurd (by simp [hc]) hprov

/-- Witness for C5 at the concrete azure-bound registry. -/
theorem get_architect_unknown_provider_raises_valueError_witness :
    registryGet registryWithAzureFinal "final" = some AZURE_GPT4O_CONFIG ∧
    AZURE_GPT4O_CONFIG.provider ∉
      [ModelProvider.anthropic, ModelProvider.openai,
       ModelProvider.deepseek, ModelProvider.gemini] ∧
    get_architect_for_phase registryWithAzureFinal "final" =
      Except.error (PyErr.valueError
        ("Unknown model provider: " ++
          providerDisplay AZURE_GPT4O_CONFIG.provider)) :=
  ⟨by decide, by decide,
   get_architect_unknown_provider_raises_valueError registryWithAzureFinal
     "final" AZURE_GPT4O_CONFIG (by decide) (by decide)⟩

/-- C7 counterexample: a concrete successful `final_analysis` result is
the single-key mapping under `final_analysis`; it contains neither an
`output` key nor a `tokens_used` key. -/
theorem final_analysis_result_lacks_output_key :
    azureFinalAnalysis "system" "report" none (Except.ok []) =
      Except.ok (PyVal.dict [("final_analysis", PyVal.str "")]) ∧
    PyVal.hasKey (PyVal.dict [("final_analysis", PyVal.str "")]) "output" =
      false ∧
    PyVal.hasKey (PyVal.dict [("final_analysis", PyVal.str "")]) "tokens_used" =
      false :=
  ⟨rfl, rfl, rfl⟩

/-- C7 (amended): every successful result of
`AzureOpenAIArchitect.final_analysis` is a mapping holding exactly the
key `final_analysis` with a textual report; the `output` and
`tokens_used` shape is asserted by the repository's test of the
orchestrator-level `FinalAnalysis` run, whose module is outside the
analyzed sources. -/
theorem final_analysis_result_single_final_analysis_key
    (system_message consolidated_report : String)
    (project_structure : Option (List String)) (chunks : List Chunk) :
    ∃ s, azureFinalAnalysis system_message consolidated_report
        project_structure (Except.ok chunks) =
      Except.ok (PyVal.dict [("final_analysis", PyVal.str s)]) :=
  ⟨"", rfl⟩

/-- C9: when the vendor request inside `_call_azure_openai` raises any
exception, the wrapper emits exactly one error log line and re-raises
the same exception; it never converts the failure into a normal result. -/
theorem call_azure_openai_logs_and_reraises
    (messages : List (String × String)) (e : PyErr) :
    callAzureOpenAI messages (Except.error e) =
      (["Error streaming from Azure OpenAI API: " ++ e.message],
       Except.error e) :=
  rfl

/-- The encoding loop returns the first encoding of the list whose strict
decode succeeds, paired with its decoded content. -/
theorem tryEncodings_eq_find (bs : List Nat) :
    ∀ encs : List String,
      tryEncodings bs encs =
        (encs.find? (fun enc => (decodeWith enc bs).isSome)).map
          (fun enc => ((decodeWith enc bs).getD [], enc))
  | [] => rfl
  | enc :: rest => by
      cases h : decodeWith enc bs with
      | some content =>
          simp [tryEncodings, openRead, h, List.find?]
      | none =>
          simp [tryEncodings, openRead, h, List.find?,
            tryEncodings_eq_find bs rest]

/-- C6: for every file (byte sequence), `read_file_with_fallback` returns
the content decoded by the first encoding of `ENCODINGS` that succeeds,
reporting that encoding; when every listed encoding fails it returns the
bytes decoded as UTF-8 with replacement characters, reporting
`utf-8 (with replacement)`. The function is total, so no
`UnicodeDecodeError` ever escapes it. -/
theorem read_file_with_fallback_first_encoding (bs : List Nat) :
    read_file_with_fallback bs =
      match ENCODINGS.find? (fun enc => (decodeWith enc bs).isSome) with
      | some enc => ((decodeWith enc bs).getD [], enc)
      | none => (utf8Replace bs, "utf-8 (with replacement)") := by
  unfold read_file_with_fallback
  rw [tryEncodings_eq_find bs ENCODINGS]
  cases hfind : ENCODINGS.find? (fun enc => (decodeWith enc bs).isSome) <;> rfl

/-- Soundness of the recursive walk in `list_files`: every yielded path
passed the exclusion check, and each unit of fuel admits at most one
further path component below the directory the walk started from. -/
theorem listFilesGo_sound (entries : FsEntries) (eD eP : List String)
    (maxD : Nat) :
    ∀ (fuel : Nat) (parent : List String) (depth : Nat),
      ∀ p ∈ listFilesGo entries eD eP maxD fuel parent depth,
        should_exclude p eD eP = false ∧ p.length ≤ parent.length + fuel := by
  intro fuel
  induction fuel with
  | zero =>
      intro parent depth p hp
      simp [listFilesGo] at hp
  | succ f ih =>
      intro parent depth p hp
      rw [listFilesGo] at hp
      by_cases hd : depth > maxD
      · rw [if_pos hd] at hp
        simp at hp
      · rw [if_neg hd] at hp
        simp only [List.mem_flatMap, List.mem_filter] at hp
        obtain ⟨it, ⟨hmem_it, hchild⟩, hp⟩ := hp
        have hlen : it.1.length = parent.length + 1 := by
          have h := hchild
          simp [isChildOf] at h
          exact h.1
        by_cases hex : should_exclude it.1 eD eP = true
        · rw [if_pos hex] at hp
          simp at hp
        · rw [if_neg hex] at hp
          have hex' : should_exclude it.1 eD eP = false := by
            revert hex
            cases should_exclude it.1 eD eP <;> simp
          by_cases hfile : it.2 = true
          · rw [if_pos hfile] at hp
            have hpeq : p = it.1 := by simpa using hp
            subst hpeq
            exact ⟨hex', by omega⟩
          · rw [if_neg hfile] at hp
            have h := ih it.1 (depth + 1) p hp
            exact ⟨h.1, by omega⟩

/-- C8: under the default exclusion policy, every path yielded by
`list_files` has no component in `EXCLUDED_DIRS`, a final name matching
no entry of `EXCLUDED_FILES` and no `*ext` pattern derived from
`EXCLUDED_EXTENSIONS`, and lies at most `max_depth` directory levels
below the root (so its part-list has at most `max_depth + 1` components
beyond the root's). -/
theorem list_files_default_respects_exclusions (entries : FsEntries)
    (root p : List String) (max_depth : Nat)
    (hmem : p ∈ list_files_default entries root max_depth) :
    (∀ part ∈ p, part ∉ EXCLUDED_DIRS) ∧
    (∀ f ∈ EXCLUDED_FILES, fnmatch (pathName p) f = false) ∧
    (∀ ext ∈ EXCLUDED_EXTENSIONS, fnmatch (pathName p) ("*" ++ ext) = false) ∧
    p.length ≤ root.length + max_depth + 1 := by
  have h := listFilesGo_sound entries EXCLUDED_DIRS defaultExcludePatterns
    max_depth (max_depth + 1) root 0 p hmem
  obtain ⟨hex, hlen⟩ := h
  unfold should_exclude at hex
  rw [Bool.or_eq_false_iff] at hex
  obtain ⟨hdirs, hpats⟩ := hex
  simp only [List.any_eq_false] at hdirs hpats
  refine ⟨?_, ?_, ?_, by omega⟩
  · intro part hpart hmemd
    have h := hdirs part hpart
    refine h ?_
    show List.elem part EXCLUDED_DIRS = true
    exact List.elem_eq_true_of_mem hmemd
  · intro f hf
    simpa using hpats f
      (by unfold defaultExcludePatterns; exact List.mem_append_left _ hf)
  · intro ext hext
    have hmemext : "*" ++ ext ∈ defaultExcludePatterns := by
      unfold defaultExcludePatterns
      exact List.mem_append_right _ (List.mem_map_of_mem _ hext)
    simpa using hpats ("*" ++ ext) hmemext

/-- Witness for C8 on a one-file tree. -/
theorem list_files_default_respects_exclusions_witness :
    ["repo", "main.py"] ∈
      list_files_default [(["repo", "main.py"], true)] ["repo"] 10 ∧
    ((∀ part ∈ ["repo", "main.py"], part ∉ EXCLUDED_DIRS) ∧
     (∀ f ∈ EXCLUDED_FILES,
        fnmatch (pathName ["repo", "main.py"]) f = false) ∧
     (∀ ext ∈ EXCLUDED_EXTENSIONS,
        fnmatch (pathName ["repo", "main.py"]) ("*" ++ ext) = false) ∧
     (["repo", "main.py"] : List String).length ≤
        (["repo"] : List String).length + 10 + 1) :=
  ⟨by decide,
   list_files_default_respects_exclusions [(["repo", "main.py"], true)]
     ["repo"] ["repo", "main.py"] 10 (by decide)⟩

/-- C10: when `get_file_contents` is called with `vscode_config=True` and
a caller-supplied `exclude_dirs` set containing `.vscode`, the removal
happens on a fresh copy: the caller's set is unchanged after the call
(in particular it still contains `.vscode`), while the effective set used
by the call is the copy with `.vscode` removed. -/
theorem get_file_contents_preserves_caller_exclude_dirs (σ : SetStore)
    (l : Nat) (hvs : ".vscode" ∈ σ.read l) :
    (getFileContentsExcludeDirs true (some l) σ).2.read l = σ.read l ∧
    ∃ l2, (getFileContentsExcludeDirs true (some l) σ).1 = some l2 ∧
      (getFileContentsExcludeDirs true (some l) σ).2.read l2 =
        (σ.read l).erase ".vscode" := by
  have hlt : l < σ.cells.length := by
    by_contra hge
    push_neg at hge
    have hnil : σ.read l = [] := by
      unfold SetStore.read
      exact List.getD_eq_default _ _ hge
    rw [hnil] at hvs
    cases hvs
  have hcond : (true && (σ.read l).contains ".vscode") = true := by
    simp [hvs]
  simp only [getFileContentsExcludeDirs]
  rw [if_pos hcond]
  constructor
  · show (SetStore.write ⟨σ.cells ++ [σ.read l]⟩ σ.cells.length _).read l = σ.read l
    unfold SetStore.write SetStore.read
    unfold List.getD
    rw [List.get?_eq_getElem?, List.getElem?_set_ne (by omega),
      List.getElem?_append_left hlt, ← List.get?_eq_getElem?]
  · refine ⟨σ.cells.length, rfl, ?_⟩
    show (SetStore.write ⟨σ.cells ++ [σ.read l]⟩ σ.cells.length
        ((SetStore.read ⟨σ.cells ++ [σ.read l]⟩ σ.cells.length).erase ".vscode")).read
        σ.cells.length = (σ.read l).erase ".vscode"
    have hread : SetStore.read ⟨σ.cells ++ [σ.read l]⟩ σ.cells.length = σ.read l := by
      unfold SetStore.read
      unfold List.getD
      rw [List.get?_eq_getElem?, List.getElem?_append_right (le_refl _)]
      simp
    rw [hread]
    unfold SetStore.write SetStore.read
    unfold List.getD
    rw [List.get?_eq_getElem?, List.getElem?_set_self]
    · rfl
    · simp

/-- Witness for C10 on a concrete two-element set. -/
theorem get_file_contents_preserves_caller_exclude_dirs_witness :
    ".vscode" ∈ SetStore.read ⟨[[".vscode", ".git"]]⟩ 0 ∧
    ((getFileContentsExcludeDirs true (some 0) ⟨[[".vscode", ".git"]]⟩).2.read 0 =
        SetStore.read ⟨[[".vscode", ".git"]]⟩ 0 ∧
     ∃ l2, (getFileContentsExcludeDirs true (some 0) ⟨[[".vscode", ".git"]]⟩).1 =
          some l2 ∧
        (getFileContentsExcludeDirs true (some 0) ⟨[[".vscode", ".git"]]⟩).2.read l2 =
          (SetStore.read ⟨[[".vscode", ".git"]]⟩ 0).erase ".vscode") :=
  ⟨by decide,
   get_file_contents_preserves_caller_exclude_dirs ⟨[[".vscode", ".git"]]⟩ 0
     (by decide)⟩
